import Mathlib

/-!
Shallow embedding of the reverse-split announcement scoring and selection
logic of the repository (src/find_earliest_announcement.py together with
the ratio extraction of src/edgar_workflow_complete.py), and theorems
settling the claims of the specification about it.

Dates: a parsed Python `datetime` (every datetime in this code is at
midnight) is modelled by its day number, days since 1970-01-01, computed
from the civil date by the standard Gregorian-calendar formula.  Day-number
subtraction then equals `(a - b).days`, day-number order equals `datetime`
order, and `pyWeekday` equals `datetime.weekday`.
-/

/-- Day number (days since 1970-01-01, possibly negative) of the civil date
`y-m-d` in the proleptic Gregorian calendar, by the standard counting
formula (eras of 400 years = 146097 days, with the year starting in
March). -/
def daysFromCivil (y m d : Nat) : Int :=
  let yp := if m ≤ 2 then y - 1 else y
  let era := yp / 400
  let yoe := yp % 400
  let mp := if 3 ≤ m then m - 3 else m + 9
  let doy := (153 * mp + 2) / 5 + d - 1
  let doe := yoe * 365 + yoe / 4 - yoe / 100 + doy
  ((era * 146097 + doe : Nat) : Int) - 719468

/-- Python `datetime.weekday` of a day number: Monday = 0 .. Sunday = 6
(1970-01-01, day 0, was a Thursday = 3). -/
def pyWeekday (z : Int) : Int :=
  (z + 3).emod 7

/-- Models `get_business_days_diff` (src/find_earliest_announcement.py lines
55-67): swap so the first date is the earlier, count the days of the
inclusive range whose weekday is Monday..Friday, subtract 1. -/
def get_business_days_diff (d1 d2 : Int) : Int :=
  let lo := min d1 d2
  let hi := max d1 d2
  let n := (hi - lo).toNat + 1
  ((List.range n).countP (fun i => decide (pyWeekday (lo + (i : Int)) < 5)) : Int) - 1

/-- Abstraction of a nonempty date string.  `iso y m d` is a string that
`parse_date` parses to the civil date `y-m-d` (every date string that the
source sorts or compares as a raw string is produced in the ISO form
YYYY-MM-DD, whose lexicographic order is day-number order); `junk k` is a
nonempty string that `parse_date` fails on, `k` an arbitrary tag.  A
missing field or empty string is `none : Option DateStr`. -/
inductive DateStr where
  | iso (y m d : Nat)
  | junk (k : Nat)
deriving DecidableEq

/-- Models `parse_date` (lines 70-81): falsy input gives `None`, otherwise the
known formats are tried; on the abstraction an `iso` string parses to its
day number and a `junk` string to `None`. -/
def parse_date : Option DateStr → Option Int
  | none => none
  | some (DateStr.iso y m d) => some (daysFromCivil y m d)
  | some (DateStr.junk _) => none

/-- The form strings named in the scoring table; `othr k` stands for any
other form string (no base points). -/
inductive Form where
  | f8K | f6K
  | fDEF14A | fPRE14A | fDEFA14A | f14C | fPRE14C
  | fS1 | fS3 | f424B5 | f424B3 | fFWP
  | f10K | f10Q | f20F
  | othr (k : Nat)
deriving DecidableEq

/-- Base prior by form (lines 121-133). -/
def formBase : Form → Int
  | Form.f8K | Form.f6K => 3
  | Form.fDEF14A | Form.fPRE14A | Form.fDEFA14A | Form.f14C | Form.fPRE14C => 2
  | Form.fS1 | Form.fS3 | Form.f424B5 | Form.f424B3 | Form.fFWP => 1
  | Form.f10K | Form.f10Q | Form.f20F => 0
  | Form.othr _ => 0

/-- Item-code strings of the `items` list of a filing ("3.01" and so on);
`othr k` stands for any other item string. -/
inductive Item where
  | i301 | i302 | i503 | i801 | i101 | othr (k : Nat)
deriving DecidableEq

inductive Tier where
  | A | B | C | F
deriving DecidableEq

/-- One EDGAR filing as read from the `edgar_events` collection, restricted
to the fields `score_filing` reads.  `text_has_rs_kw` abstracts
`has_rs_keyword` applied to the joined `text_matches` values (a pure regex
check the claims do not probe); the two flag fields model
`flags.get(..., False)`; `ratio_num`/`ratio_den` are `none` when the field
is absent (the source only ever tests the numbers for truthiness and sign,
which the embedding reproduces on `Option Int`). -/
structure Filing where
  form : Form
  filing_date : Option DateStr
  announce_date : Option DateStr
  effective_date : Option DateStr
  ratio_num : Option Int
  ratio_den : Option Int
  compliance_flag : Bool
  financing_flag : Bool
  items : List Item
  text_has_rs_kw : Bool
deriving DecidableEq

/-- Models `is_year_like_ratio` (lines 35-40). -/
def is_year_like_ratio (num den : Int) : Bool :=
  decide (1900 ≤ num ∧ num ≤ 2100 ∧ 1900 ≤ den ∧ den ≤ 2100)

/-- Condition `ratio_num and ratio_den and ratio_num > 0 and ratio_den > 0`
(lines 98-100, reused at line 140): both present and positive. -/
def hasPosRatio (f : Filing) : Bool :=
  match f.ratio_num, f.ratio_den with
  | some n, some d => decide (0 < n ∧ 0 < d)
  | _, _ => false

/-- Truthiness of `ratio_num and ratio_den`: both present and nonzero. -/
def truthyRatioPair (f : Filing) : Bool :=
  match f.ratio_num, f.ratio_den with
  | some n, some d => decide (n ≠ 0 ∧ d ≠ 0)
  | _, _ => false

/-- The hard gate (lines 94-109): an RS keyword in the text matches, or a
positive ratio, or an effective date, or the compliance flag. -/
def hasRS (f : Filing) : Bool :=
  f.text_has_rs_kw || hasPosRatio f || f.effective_date.isSome || f.compliance_flag

/-- Ratio content marker (lines 139-143): +2 for a positive, non-year-like
extracted ratio. -/
def ratioPts (f : Filing) : Int :=
  match f.ratio_num, f.ratio_den with
  | some n, some d =>
      if 0 < n ∧ 0 < d ∧ is_year_like_ratio n d = false then 2 else 0
  | _, _ => 0

/-- Effective-date marker (lines 145-148). -/
def effectivePts (f : Filing) : Int :=
  if f.effective_date.isSome then 1 else 0

/-- Announce-sentence marker (lines 150-162): the announce date is present,
the filing date parses, the announce date parses, differs from the filing
date and is not after it. -/
def announcePts (f : Filing) : Int :=
  match f.announce_date, parse_date f.filing_date with
  | some ad, some fd =>
      match parse_date (some ad) with
      | some adt => if adt ≠ fd ∧ adt ≤ fd then 1 else 0
      | none => 0
  | _, _ => 0

/-- Compliance/listing cue (lines 164-169). -/
def compliancePts (f : Filing) : Int :=
  if f.compliance_flag = true ∨ Item.i301 ∈ f.items then 1 else 0

/-- Share-change cue, item 3.02 (lines 171-174). -/
def sharePts (f : Filing) : Int :=
  if Item.i302 ∈ f.items then 1 else 0

/-- SA-ratio alignment (lines 176-180): the SA ratio exists (a tuple is
always truthy in Python), both ratio fields are truthy, and the pair equals
the SA ratio. -/
def saRatioPts (f : Filing) : Option (Int × Int) → Int
  | some r =>
      match f.ratio_num, f.ratio_den with
      | some n, some d => if n ≠ 0 ∧ d ≠ 0 ∧ (n, d) = r then 1 else 0
      | _, _ => 0
  | none => 0

/-- Effective date near SA (lines 182-189): both dates present, the filing
effective date parses, and the absolute business-day difference is within
5. -/
def saEffPts (f : Filing) : Option Int → Int
  | some sd =>
      match f.effective_date with
      | some eff =>
          match parse_date (some eff) with
          | some effd =>
              if (get_business_days_diff effd sd).natAbs ≤ 5 then 1 else 0
          | none => 0
      | none => 0
  | none => 0

/-- Financing-only penalty (lines 191-194): financing flag set, ratio pair
not truthy, no effective date. -/
def financingPts (f : Filing) : Int :=
  if f.financing_flag && !(truthyRatioPair f) && f.effective_date.isNone then -1 else 0

/-- Tier from accumulated score (lines 196-202). -/
def tierOf (score : Int) : Tier :=
  if 5 ≤ score then Tier.A else if 3 ≤ score then Tier.B else Tier.C

/-- The total additive score of a gate-passing filing (lines 119-194); the
nine contributions are computed from disjoint pieces of the inputs, in
source order. -/
def totalScore (f : Filing) (sa_ratio : Option (Int × Int)) (sa_eff : Option Int) : Int :=
  formBase f.form + ratioPts f + effectivePts f + announcePts f +
    compliancePts f + sharePts f + saRatioPts f sa_ratio + saEffPts f sa_eff +
    financingPts f

/-- Candidate date via the announce date (lines 204-213): the raw
announce-date string, when it is present, it and the filing date both
parse, and it is not after the filing date. -/
def announceCandidate (f : Filing) : Option DateStr :=
  match f.announce_date, parse_date f.announce_date, parse_date f.filing_date with
  | some ad, some adt, some fdt => if adt ≤ fdt then some ad else none
  | _, _, _ => none

/-- Field `candidate_announce_date` (lines 204-217): the announce-date route,
else the raw filing-date field as fallback. -/
def candidateDate (f : Filing) : Option DateStr :=
  match announceCandidate f with
  | some cd => some cd
  | none => f.filing_date

structure ScoreResult where
  score : Int
  tier : Tier
  candidate_announce_date : Option DateStr
  ratio : Option (Int × Int)
deriving DecidableEq

/-- Models `score_filing` (lines 84-225).  A filing failing the hard gate returns
score 0, tier F and a `None` candidate date (the early return of lines
111-117; that dict carries no `ratio` key, modelled as `none` — the
selector short-circuits before reading the key of a tier-F filing). -/
def score_filing (f : Filing) (sa_ratio : Option (Int × Int)) (sa_eff : Option Int) :
    ScoreResult :=
  if hasRS f then
    ⟨totalScore f sa_ratio sa_eff, tierOf (totalScore f sa_ratio sa_eff),
      candidateDate f,
      match f.ratio_num, f.ratio_den with
      | some n, some d => if n ≠ 0 ∧ d ≠ 0 then some (n, d) else none
      | _, _ => none⟩
  else
    ⟨0, Tier.F, none, none⟩

/-- A scored filing as the selector keeps it: the filing together with the
spread scoring result (lines 267-274). -/
structure SF where
  filing : Filing
  score : Int
  tier : Tier
  cand : Option DateStr
  ratio : Option (Int × Int)
deriving DecidableEq

def mkSF (sa_ratio : Option (Int × Int)) (sa_eff : Option Int) (f : Filing) : SF :=
  ⟨f, (score_filing f sa_ratio sa_eff).score, (score_filing f sa_ratio sa_eff).tier,
    (score_filing f sa_ratio sa_eff).candidate_announce_date,
    (score_filing f sa_ratio sa_eff).ratio⟩

/-- Tier-A partition (line 277). -/
def tierListA (l : List SF) : List SF :=
  l.filter (fun sf => decide (sf.tier = Tier.A ∧ 5 ≤ sf.score))

/-- Tier-B partition (line 278). -/
def tierListB (l : List SF) : List SF :=
  l.filter (fun sf => decide (sf.tier = Tier.B ∧ 3 ≤ sf.score ∧ sf.score ≤ 4))

/-- Tier-C partition (lines 279-280): tier C, score at least 3, a truthy
ratio entry and a truthy effective date. -/
def tierListC (l : List SF) : List SF :=
  l.filter (fun sf =>
    decide (sf.tier = Tier.C ∧ 3 ≤ sf.score ∧ sf.ratio ≠ none ∧
      sf.filing.effective_date ≠ none))

/-- Tier-F listing (line 361). -/
def tierListF (l : List SF) : List SF :=
  l.filter (fun sf => decide (sf.tier = Tier.F))

/-- The sanity filter (lines 298-312), transcribed branch for branch: with
a truthy candidate date and a parsed SA date, keep when the parsed
candidate date is within 365 days, or (the `elif` of line 309, kept
verbatim) it is after the SA date and within 30 days; a truthy candidate
date that fails to parse falls out of both branches and is dropped; in all
other cases the `else` keeps the candidate unconditionally. -/
def sanityKeep (sa_eff : Option Int) (c : SF) : Bool :=
  match c.cand, sa_eff with
  | some cd, some sd =>
      match parse_date (some cd) with
      | some cdt =>
          decide ((cdt - sd).natAbs ≤ 365) ||
            (decide (sd < cdt) && decide ((cdt - sd).natAbs ≤ 30))
      | none => false
  | _, _ => true

/-- Lines 298-316: the sanity-filtered pool, falling back to the unfiltered
pool when the filter leaves nothing. -/
def surviving (sa_eff : Option Int) (cands : List SF) : List SF :=
  let valid := cands.filter (sanityKeep sa_eff)
  if valid.isEmpty then cands else valid

/-- Date component of the sort key (line 320): the raw candidate-date
string with `None` replaced by the sentinel "9999-99-99", compared as a
string.  An ISO string compares as its day number, and the sentinel after
every ISO date; the relative place of `junk` strings (which never occur
among candidate dates, always produced in ISO form) is abstracted by their
tag. -/
def dateKey : Option DateStr → Int × Int
  | some (DateStr.iso y m d) => (0, daysFromCivil y m d)
  | none => (1, 0)
  | some (DateStr.junk k) => (2, k)

/-- The sort order of lines 318-322: candidate date ascending, then score
descending. -/
def candLE (a b : SF) : Bool :=
  decide ((dateKey a.cand).1 < (dateKey b.cand).1 ∨
    ((dateKey a.cand).1 = (dateKey b.cand).1 ∧
      ((dateKey a.cand).2 < (dateKey b.cand).2 ∨
        ((dateKey a.cand).2 = (dateKey b.cand).2 ∧ b.score ≤ a.score))))

/-- Relation `candLE` as a `Prop` relation, for the sort lemmas. -/
def CandRel (a b : SF) : Prop := candLE a b = true

instance : DecidableRel CandRel :=
  fun a b => inferInstanceAs (Decidable (candLE a b = true))

/-- Python `list.sort` (line 319) is a stable sort by the key; a stable
insertion sort with the same total preorder computes the identical list. -/
def sortCandidates (l : List SF) : List SF :=
  List.insertionSort CandRel l

/-- Lines 319-323: sort and take the first element. -/
def selectBest (cands : List SF) : Option SF :=
  (sortCandidates cands).head?

/-- One `reverse_sa` document, restricted to the fields the selector reads:
the symbol, the first `N:D` regex match of the "Split Ratio" string
(`none` when the field is falsy or nothing matches), and the "Date"
string. -/
structure EventRec where
  symbol : String
  ratio_field : Option (Int × Int)
  date_field : Option DateStr
deriving DecidableEq

/-- Models `parse_sa_ratio` (lines 20-32) on the abstracted field: accept the
matched pair when both components are positive. -/
def parse_sa_ratio : Option (Int × Int) → Option (Int × Int)
  | some (n, d) => if 0 < n ∧ 0 < d then some (n, d) else none
  | none => none

/-- The two MongoDB collections, as association lists keyed by the
`reverse_sa` id. -/
structure DB where
  events : List (Nat × EventRec)
  filings : List (Nat × Filing)
deriving DecidableEq

/-- Lookup `reverse_collection.find_one` by id (line 245). -/
def findEvent (db : DB) (id : Nat) : Option EventRec :=
  (db.events.find? (fun p => p.1 == id)).map (fun p => p.2)

/-- Query `edgar_collection.find` by `reverse_sa_id` (line 256). -/
def filingsFor (db : DB) (id : Nat) : List Filing :=
  (db.filings.filter (fun p => p.1 == id)).map (fun p => p.2)

inductive SelErr where
  | notFound (id : Nat)
deriving DecidableEq

/-- The full result dict of a selector run that reached scoring (lines
364-389), restricted to the fields the claims read. -/
structure Decision where
  announcement_date : Option DateStr
  best : Option SF
  tier_a : List SF
  tier_b : List SF
  tier_c : List SF
  tier_f : List SF
deriving DecidableEq

/-- The three shapes of dict returned by `find_earliest_announcement`: the
error dict (line 247), the zero-filings dict (lines 258-265: symbol,
`announcement_date: None`, `best_filing: None`, a message string and no
tier keys), and the full decision.  The `try/except` wrapper turns
exceptions into error dicts; the pure model raises none. -/
inductive SelResult where
  | err (e : SelErr)
  | noFilings (symbol : String)
  | dec (d : Decision)
deriving DecidableEq

/-- Models `find_earliest_announcement` (lines 228-394). -/
def find_earliest_announcement (db : DB) (id : Nat) : SelResult :=
  match findEvent db id with
  | none => SelResult.err (SelErr.notFound id)
  | some ev =>
      let sa_ratio := parse_sa_ratio ev.ratio_field
      let sa_eff := parse_date ev.date_field
      let fs := filingsFor db id
      if fs.isEmpty then SelResult.noFilings ev.symbol
      else
        let scored := fs.map (mkSF sa_ratio sa_eff)
        let ta := tierListA scored
        let tb := tierListB scored
        let tc := tierListC scored
        let tf := tierListF scored
        let all_candidates := ta ++ tb ++ tc
        let best :=
          if all_candidates.isEmpty then none
          else selectBest (surviving sa_eff all_candidates)
        SelResult.dec ⟨best.bind (fun b => b.cand), best, ta, tb, tc, tf⟩

/-- Accessor `result.get("error")`: only the error dict carries the key. -/
def SelResult.errOf : SelResult → Option SelErr
  | SelResult.err e => some e
  | _ => none

/-- Accessor `result.get("announcement_date")`: the zero-filings dict stores `None`
and the error dict lacks the key. -/
def SelResult.annOf : SelResult → Option DateStr
  | SelResult.dec d => d.announcement_date
  | _ => none

/-- Accessor `result.get("all_filings_by_tier", ...).get("tier_x", [])` for the four
tiers; dicts lacking the key yield the empty default. -/
def SelResult.tiersOf : SelResult → List SF × List SF × List SF × List SF
  | SelResult.dec d => (d.tier_a, d.tier_b, d.tier_c, d.tier_f)
  | _ => ([], [], [], [])

/-- Abstraction of a text input of `extract_reverse_split_ratio`
(src/edgar_workflow_complete.py lines 232-257) by the first-match capture
groups of its four ratio regex patterns, in the order the source tries
them; `none` when the pattern does not match (in particular an empty text
matches nothing). -/
structure RatioText where
  m_hyphen_for : Option (Int × Int)
  m_word_for : Option (Int × Int)
  m_colon : Option (Int × Int)
  m_slash : Option (Int × Int)
deriving DecidableEq

/-- The validation of a match (line 249): positive numerator, strictly
larger denominator, not year-like. -/
def ratioMatchOK (n d : Int) : Bool :=
  decide (0 < n) && decide (n < d) && !(is_year_like_ratio n d)

/-- One step of the pattern loop (lines 244-255): a matching pattern
returns its pair when valid, otherwise the loop moves on. -/
def tryPattern (m : Option (Int × Int)) (rest : Option (Int × Int)) :
    Option (Int × Int) :=
  match m with
  | some (n, d) => if ratioMatchOK n d then some (n, d) else rest
  | none => rest

/-- Models `extract_reverse_split_ratio`, restricted to the returned integer pair
(the returned dict also carries `log_ratio` and `ratio_text`; the former is
modelled by `stored_log_ratio` below, real-number values being
noncomputable). -/
def extract_reverse_split_ratio (t : RatioText) : Option (Int × Int) :=
  tryPattern t.m_hyphen_for (tryPattern t.m_word_for (tryPattern t.m_colon
    (tryPattern t.m_slash none)))

/-- Rounding `round(x, 4)` on the idealized reals. -/
noncomputable def round4 (x : ℝ) : ℝ := ((round (x * 10000) : ℤ) : ℝ) / 10000

/-- The `log_ratio` value stored for an accepted pair: `math.log(den/num)`
(line 252 of src/edgar_workflow_complete.py) rounded to 4 decimals when
persisted (line 493). -/
noncomputable def stored_log_ratio (n d : Int) : ℝ :=
  round4 (Real.log ((d : ℝ) / (n : ℝ)))

/-!
Helper lemmas shared by the claim theorems.
-/

lemma tierOf_eq_A_iff (s : Int) : tierOf s = Tier.A ↔ 5 ≤ s := by
  unfold tierOf; split_ifs <;> simp_all

lemma tierOf_eq_B_iff (s : Int) : tierOf s = Tier.B ↔ 3 ≤ s ∧ s < 5 := by
  unfold tierOf; split_ifs <;> simp_all <;> omega

lemma tierOf_eq_C_iff (s : Int) : tierOf s = Tier.C ↔ s < 3 := by
  unfold tierOf; split_ifs <;> simp_all <;> omega

lemma tierOf_ne_F (s : Int) : tierOf s ≠ Tier.F := by
  unfold tierOf; split_ifs <;> simp

lemma saRatioPts_nonneg (f : Filing) (sr : Option (Int × Int)) : 0 ≤ saRatioPts f sr := by
  rcases sr with _ | r
  · simp [saRatioPts]
  · rcases hn : f.ratio_num with _ | n <;> rcases hd : f.ratio_den with _ | d <;>
      simp only [saRatioPts, hn, hd] <;> (try split_ifs) <;> omega

lemma saRatioPts_none (f : Filing) : saRatioPts f none = 0 := rfl

lemma saEffPts_nonneg (f : Filing) (se : Option Int) : 0 ≤ saEffPts f se := by
  rcases se with _ | sd
  · simp [saEffPts]
  · rcases he : f.effective_date with _ | e
    · simp [saEffPts, he]
    · rcases hp : parse_date (some e) with _ | ed <;>
        simp only [saEffPts, he, hp] <;> (try split_ifs) <;> omega

lemma saEffPts_none (f : Filing) : saEffPts f none = 0 := rfl

instance : IsTotal SF CandRel := by
  constructor
  intro a b
  simp only [CandRel, candLE, decide_eq_true_eq]
  omega

instance : IsTrans SF CandRel := by
  constructor
  intro a b c hab hbc
  simp only [CandRel, candLE, decide_eq_true_eq] at *
  omega

lemma candRel_refl (a : SF) : CandRel a a := by
  simp [CandRel, candLE]

/-- The first element of the sorted candidate pool is below every element
of the pool in the sort order. -/
lemma selectBest_min (l : List SF) (b : SF) (h : selectBest l = some b) :
    ∀ c ∈ l, CandRel b c := by
  unfold selectBest sortCandidates at h
  rcases hs : List.insertionSort CandRel l with _ | ⟨x, t⟩
  · rw [hs] at h; simp at h
  · rw [hs] at h
    simp only [List.head?_cons, Option.some.injEq] at h
    subst h
    intro c hc
    have hmem : c ∈ List.insertionSort CandRel l :=
      (List.perm_insertionSort CandRel l).mem_iff.mpr hc
    rw [hs] at hmem
    rcases List.mem_cons.mp hmem with rfl | hct
    · exact candRel_refl c
    · have hsort := List.sorted_insertionSort CandRel l
      rw [hs] at hsort
      exact List.rel_of_sorted_cons hsort _ hct

lemma scored_tierC_score_lt (sr : Option (Int × Int)) (se : Option Int) (f : Filing) :
    (mkSF sr se f).tier = Tier.C → (mkSF sr se f).score < 3 := by
  unfold mkSF
  by_cases hg : hasRS f
  · simp only [score_filing, hg, if_true]
    exact (tierOf_eq_C_iff _).mp
  · simp [score_filing, hg]

/-- The stricter tier-C admission filter for scored filings never admits
anything: a scored tier-C filing has score below 3. -/
lemma tierListC_scored_nil (sr : Option (Int × Int)) (se : Option Int) (fs : List Filing) :
    tierListC (fs.map (mkSF sr se)) = [] := by
  unfold tierListC
  rw [List.filter_eq_nil_iff]
  intro sf hsf
  simp only [List.mem_map] at hsf
  obtain ⟨f, _, rfl⟩ := hsf
  simp only [decide_eq_true_eq, not_and]
  intro htier h3
  have := scored_tierC_score_lt sr se f htier
  omega

/-!
Concrete inputs used by scenario theorems and witnesses.
-/

/-- The filing of the C1 scenario: an 8-K with ratio 1:20, effective date
2024-03-01, announce date 2024-02-15, filing date 2024-03-02, no flags and
no item codes. -/
def c1Filing : Filing :=
  ⟨Form.f8K, some (DateStr.iso 2024 3 2), some (DateStr.iso 2024 2 15),
    some (DateStr.iso 2024 3 1), some 1, some 20, false, false, [], false⟩

/-- A filing carrying nothing at all (used as payload of synthetic scored
candidates fed to the sanity filter and the sort, which never read it). -/
def plainFiling : Filing :=
  ⟨Form.othr 0, none, none, none, none, none, false, false, [], false⟩

/-- Claim C1: the scenario filing, scored against an event with reference
ratio (1,20) and reference execution date 2024-03-04, gets score
3 + 2 + 1 + 1 + 1 + 1 = 9, tier A, and candidate announcement date
2024-02-15 (the ratio entry being the pair itself). -/
theorem c1_scenario_score :
    score_filing c1Filing (some (1, 20)) (some (daysFromCivil 2024 3 4)) =
      ⟨9, Tier.A, some (DateStr.iso 2024 2 15), some (1, 20)⟩ := by
  decide

/-- Claim C5: for every filing that passes the hard gate, the tier is A
exactly when the score is at least 5, B exactly when it is 3 or 4, and C
exactly when it is below 3 — in particular a negative score is not clamped
and still yields tier C, and a gate-passing filing is never tier F. -/
theorem c5_tier_thresholds (f : Filing) (sr : Option (Int × Int)) (se : Option Int)
    (h : hasRS f = true) :
    ((score_filing f sr se).tier = Tier.A ↔ 5 ≤ (score_filing f sr se).score) ∧
    ((score_filing f sr se).tier = Tier.B ↔
      3 ≤ (score_filing f sr se).score ∧ (score_filing f sr se).score ≤ 4) ∧
    ((score_filing f sr se).tier = Tier.C ↔ (score_filing f sr se).score < 3) ∧
    (score_filing f sr se).tier ≠ Tier.F := by
  simp only [score_filing, h, if_true]
  refine ⟨tierOf_eq_A_iff _, ?_, tierOf_eq_C_iff _, tierOf_ne_F _⟩
  rw [tierOf_eq_B_iff]
  omega

/-- A gate-passing (RS keyword in text), zero-point-form, financing-only
filing: base 0, penalty -1, total score -1. -/
def c5Filing : Filing :=
  ⟨Form.f10K, some (DateStr.iso 2024 1 2), none, none, none, none, false, true, [], true⟩

/-- Witness for C5 at a concrete filing of score -1: past the gate, the
negative score is kept and tiered C, not F. -/
theorem c5_witness :
    ((score_filing c5Filing none none).tier = Tier.C ↔
      (score_filing c5Filing none none).score < 3) ∧
    (score_filing c5Filing none none).tier ≠ Tier.F ∧
    (score_filing c5Filing none none).score = -1 :=
  ⟨(c5_tier_thresholds c5Filing none none (by decide)).2.2.1,
   (c5_tier_thresholds c5Filing none none (by decide)).2.2.2, by decide⟩

/-- Claim C7: with every other input fixed, supplying a reference ratio
equal to the extracted ratio of the filing, or a reference execution date
within 5 business days of the extracted effective date of the filing, never
decreases
the score. -/
theorem c7_sa_alignment_monotone (f : Filing) (sr : Option (Int × Int)) (se : Option Int)
    (r : Int × Int) (e : Int) (n d effd : Int)
    (hn : f.ratio_num = some n) (hd : f.ratio_den = some d) (hr : r = (n, d))
    (heff : parse_date f.effective_date = some effd)
    (hwin : (get_business_days_diff effd e).natAbs ≤ 5) :
    (score_filing f none se).score ≤ (score_filing f (some r) se).score ∧
    (score_filing f sr none).score ≤ (score_filing f sr (some e)).score := by
  by_cases hg : hasRS f
  · simp only [score_filing, hg, if_true]
    constructor
    · unfold totalScore
      have h1 : saRatioPts f none = 0 := saRatioPts_none f
      have h2 : 0 ≤ saRatioPts f (some r) := saRatioPts_nonneg f (some r)
      omega
    · unfold totalScore
      have h1 : saEffPts f none = 0 := saEffPts_none f
      have h2 : 0 ≤ saEffPts f (some e) := saEffPts_nonneg f (some e)
      omega
  · simp [score_filing, hg]

/-- Witness for C7 at the C1 scenario filing: adding the matching reference
ratio (1,20), or the reference date 2024-03-04 (one business day from the
effective date 2024-03-01), never lowers the score. -/
theorem c7_witness :
    (score_filing c1Filing none none).score ≤
      (score_filing c1Filing (some (1, 20)) none).score ∧
    (score_filing c1Filing none none).score ≤
      (score_filing c1Filing none (some (daysFromCivil 2024 3 4))).score :=
  ⟨(c7_sa_alignment_monotone c1Filing none none (1, 20) (daysFromCivil 2024 3 4)
      1 20 (daysFromCivil 2024 3 1) rfl rfl rfl rfl (by decide)).1,
   (c7_sa_alignment_monotone c1Filing none none (1, 20) (daysFromCivil 2024 3 4)
      1 20 (daysFromCivil 2024 3 1) rfl rfl rfl rfl (by decide)).2⟩

/-- Claim C9: whatever the database and the event, the tier-C list of the
decision of the selector is empty — the scorer gives tier C exactly to scores
below 3 while tier-C admission demands score at least 3. -/
theorem c9_tier_c_candidates_empty (db : DB) (id : Nat) :
    (find_earliest_announcement db id).tiersOf.2.2.1 = [] := by
  rcases hev : findEvent db id with _ | ev <;>
    simp only [find_earliest_announcement, hev]
  · rfl
  · by_cases hfs : (filingsFor db id).isEmpty <;>
      simp [hfs, SelResult.tiersOf, tierListC_scored_nil]

/-- A synthetic scored candidate dated 2025-04-10 (405 days after
2024-03-01). -/
def c2OutlierSF : SF :=
  ⟨plainFiling, 5, Tier.A, some (DateStr.iso 2025 4 10), none⟩

/-- Claim C2 is false as stated: the date 2025-04-10 of this candidate lies
after the reference date 2024-03-01 — so it is not "more than 365 days
before" it — yet the sanity filter drops it (the filter tests the absolute
distance, and the after-by-at-most-30-days branch cannot rescue a date
more than 365 days away). -/
theorem c2_counterexample :
    sanityKeep (some (daysFromCivil 2024 3 1)) c2OutlierSF = false ∧
    daysFromCivil 2024 3 1 < daysFromCivil 2025 4 10 := by
  decide

/-- Claim C2 (amended): when both the candidate date and the reference date
parse, a candidate is dropped exactly when the two dates are more than 365
days apart in either direction (the stated after-by-at-most-30-days
exception never fires, such a date being within 365 days already); and if
the filtering empties the pool, the unfiltered pool is used instead. -/
theorem c2_sanity_window (sd : Int) (c : SF) (cd : DateStr) (cdt : Int)
    (hc : c.cand = some cd) (hp : parse_date (some cd) = some cdt) :
    (sanityKeep (some sd) c = true ↔ (cdt - sd).natAbs ≤ 365) ∧
    (∀ (sa : Option Int) (l : List SF),
        l.filter (sanityKeep sa) = [] → surviving sa l = l) := by
  constructor
  · simp only [sanityKeep, hc, hp, Bool.or_eq_true, Bool.and_eq_true, decide_eq_true_eq]
    omega
  · intro sa l h
    unfold surviving
    simp [h]

/-- A synthetic scored candidate dated 1970-01-02 (day number 1). -/
def c2NearSF : SF :=
  ⟨plainFiling, 0, Tier.C, some (DateStr.iso 1970 1 2), none⟩

/-- Witness for the amended C2 at a concrete candidate one day after a
reference date of day 0, and at the empty pool. -/
theorem c2_sanity_window_witness :
    (sanityKeep (some 0) c2NearSF = true ↔ ((1 : Int) - 0).natAbs ≤ 365) ∧
    surviving (some 0) [] = [] :=
  ⟨(c2_sanity_window 0 c2NearSF (DateStr.iso 1970 1 2) 1 rfl rfl).1,
   (c2_sanity_window 0 c2NearSF (DateStr.iso 1970 1 2) 1 rfl rfl).2 (some 0) [] rfl⟩

/-- Claim C10: the sanity filter keeps a candidate unconditionally when its
candidate date is missing, and keeps every candidate when the reference
date fails to parse (it is absent or unparsable); the 365-day window test
runs only when both the candidate date and the reference date parse, and
then keeps exactly when within 365 days or after by at most 30 days. -/
theorem c10_sanity_unconditional_keep :
    (∀ (sa : Option Int) (c : SF), c.cand = none → sanityKeep sa c = true) ∧
    (∀ (ds : Option DateStr) (c : SF), parse_date ds = none →
        sanityKeep (parse_date ds) c = true) ∧
    (∀ (sd : Int) (c : SF) (cd : DateStr) (cdt : Int),
        c.cand = some cd → parse_date (some cd) = some cdt →
        (sanityKeep (some sd) c = true ↔
          ((cdt - sd).natAbs ≤ 365 ∨ (sd < cdt ∧ (cdt - sd).natAbs ≤ 30)))) := by
  refine ⟨?_, ?_, ?_⟩
  · intro sa c hc
    rcases sa with _ | sd <;> simp [sanityKeep, hc]
  · intro ds c hp
    rw [hp]
    rcases hcc : c.cand with _ | cd <;> simp [sanityKeep, hcc]
  · intro sd c cd cdt hc hp
    simp only [sanityKeep, hc, hp, Bool.or_eq_true, Bool.and_eq_true, decide_eq_true_eq]

/-- A synthetic scored candidate with no candidate date at all. -/
def c10NoDateSF : SF :=
  ⟨plainFiling, 0, Tier.C, none, none⟩

/-- Witness for C10: a date-less candidate is kept, every candidate is kept
under an unparsable reference date, and the window test applies to a
parsed pair. -/
theorem c10_witness :
    sanityKeep (some 0) c10NoDateSF = true ∧
    sanityKeep (parse_date (some (DateStr.junk 0))) c2NearSF = true ∧
    (sanityKeep (some 0) c2NearSF = true ↔
      (((1 : Int) - 0).natAbs ≤ 365 ∨ (0 < (1 : Int) ∧ ((1 : Int) - 0).natAbs ≤ 30))) :=
  ⟨c10_sanity_unconditional_keep.1 (some 0) c10NoDateSF rfl,
   c10_sanity_unconditional_keep.2.1 (some (DateStr.junk 0)) c2NearSF rfl,
   c10_sanity_unconditional_keep.2.2 0 c2NearSF (DateStr.iso 1970 1 2) 1 rfl rfl⟩

/-- A filing that fails the hard gate: a 10-K with a filing date but no RS
keyword, no ratio, no effective date and no compliance flag. -/
def c4GateFailFiling : Filing :=
  ⟨Form.f10K, some (DateStr.iso 2024 1 1), none, none, none, none, false, false, [], false⟩

/-- Claim C4 is false as stated: a filing that fails the hard gate is
scored tier F with a null candidate announcement date, even though its
filing date is present — the filing-date fallback is never applied on the
tier-F early return. -/
theorem c4_counterexample :
    (score_filing c4GateFailFiling none none).tier = Tier.F ∧
    (score_filing c4GateFailFiling none none).candidate_announce_date = none ∧
    c4GateFailFiling.filing_date = some (DateStr.iso 2024 1 1) := by
  decide

/-- Claim C4 (amended): every filing that passes the hard gate and carries
a filing date gets a non-null candidate announcement date — the extracted
announce date when it is present, parses, and is not after the parsed
filing date, and the filing date itself otherwise; a filing that fails the
gate gets a null candidate date. -/
theorem c4_candidate_fallback (f : Filing) (sr : Option (Int × Int)) (se : Option Int)
    (hg : hasRS f = true) (hfd : f.filing_date ≠ none) :
    (score_filing f sr se).candidate_announce_date ≠ none ∧
    (∀ ad adt fdt, f.announce_date = some ad → parse_date (some ad) = some adt →
        parse_date f.filing_date = some fdt → adt ≤ fdt →
        (score_filing f sr se).candidate_announce_date = some ad) ∧
    (announceCandidate f = none →
        (score_filing f sr se).candidate_announce_date = f.filing_date) := by
  simp only [score_filing, hg, if_true]
  refine ⟨?_, ?_, ?_⟩
  · unfold candidateDate
    rcases hac : announceCandidate f with _ | cd
    · simpa using hfd
    · simp
  · intro ad adt fdt ha hadt hfdt hle
    have hac : announceCandidate f = some ad := by
      unfold announceCandidate
      rw [ha, hadt, hfdt]
      simp [hle]
    unfold candidateDate
    rw [hac]
  · intro hac
    unfold candidateDate
    rw [hac]

/-- Witness for the amended C4 at the C1 scenario filing: the candidate
date is non-null and equals the extracted announce date 2024-02-15. -/
theorem c4_witness :
    (score_filing c1Filing none none).candidate_announce_date ≠ none ∧
    (score_filing c1Filing none none).candidate_announce_date =
      some (DateStr.iso 2024 2 15) :=
  ⟨(c4_candidate_fallback c1Filing none none (by decide) (by decide)).1,
   (c4_candidate_fallback c1Filing none none (by decide) (by decide)).2.1
      (DateStr.iso 2024 2 15) (daysFromCivil 2024 2 15) (daysFromCivil 2024 3 2)
      rfl rfl rfl (by decide)⟩

/-- The later-dated, higher-scoring candidate of the C3 scenario: an 8-K
filed 2024-01-10 with an (out-of-window) effective date — score 4. -/
def c3FilingLate : Filing :=
  ⟨Form.f8K, some (DateStr.iso 2024 1 10), none, some (DateStr.iso 2023 6 1),
    none, none, false, false, [], false⟩

/-- The earlier-dated, lower-scoring candidate of the C3 scenario: a 10-K
filed 2024-01-05 with ratio 1:20, an effective date and an announce date
equal to its filing date — score 3, with both a ratio and an effective
date. -/
def c3FilingEarly : Filing :=
  ⟨Form.f10K, some (DateStr.iso 2024 1 5), some (DateStr.iso 2024 1 5),
    some (DateStr.iso 2023 6 1), some 1, some 20, false, false, [], false⟩

/-- The C3 scenario event: reference date 2024-03-04, no reference ratio. -/
def c3Event : EventRec := ⟨"TST", none, some (DateStr.iso 2024 3 4)⟩

def c3DB : DB := ⟨[(1, c3Event)], [(1, c3FilingLate), (1, c3FilingEarly)]⟩

set_option maxRecDepth 4000 in
/-- Claim C3: the selected candidate is minimal in the order "candidate
date ascending, ties by score descending" among the surviving pool; and in
the concrete scenario — candidates scored 4 (dated 2024-01-10) and 3
(dated 2024-01-05, with ratio and effective date), both kept by the sanity
window — the selector picks 2024-01-05: the earlier date beats the higher
score. -/
theorem c3_earliest_date_wins :
    (∀ (l : List SF) (b : SF), selectBest l = some b → ∀ c ∈ l, CandRel b c) ∧
    ((score_filing c3FilingLate none (some (daysFromCivil 2024 3 4))).score = 4 ∧
     (score_filing c3FilingEarly none (some (daysFromCivil 2024 3 4))).score = 3 ∧
     (score_filing c3FilingEarly none (some (daysFromCivil 2024 3 4))).ratio ≠ none ∧
     c3FilingEarly.effective_date ≠ none ∧
     sanityKeep (parse_date c3Event.date_field)
       (mkSF none (parse_date c3Event.date_field) c3FilingLate) = true ∧
     sanityKeep (parse_date c3Event.date_field)
       (mkSF none (parse_date c3Event.date_field) c3FilingEarly) = true ∧
     (find_earliest_announcement c3DB 1).annOf = some (DateStr.iso 2024 1 5)) :=
  ⟨selectBest_min, by decide⟩

/-- Witness for the general part of C3 at a one-element pool. -/
theorem c3_witness : CandRel c10NoDateSF c10NoDateSF :=
  c3_earliest_date_wins.1 [c10NoDateSF] c10NoDateSF rfl c10NoDateSF
    (List.mem_singleton_self _)

/-- Claim C6: on a text whose only ratio-pattern match is the pair (N, D)
— in colon, worded-for, hyphenated-for or slash surface form — extraction
returns the pair exactly when D > N > 0 and the pair is not year-like,
together with the natural log of D/N rounded to 4 decimals as the stored
log ratio; for D ≤ N (which covers forward-split phrasings) or year-like
pairs it returns nothing. -/
theorem c6_ratio_extraction (N D : Int) (t : RatioText)
    (hform : t = ⟨some (N, D), none, none, none⟩ ∨ t = ⟨none, some (N, D), none, none⟩ ∨
      t = ⟨none, none, some (N, D), none⟩ ∨ t = ⟨none, none, none, some (N, D)⟩) :
    (0 < N ∧ N < D ∧ is_year_like_ratio N D = false →
        extract_reverse_split_ratio t = some (N, D) ∧
        stored_log_ratio N D = round4 (Real.log ((D : ℝ) / (N : ℝ)))) ∧
    ((D ≤ N ∨ is_year_like_ratio N D = true) →
        extract_reverse_split_ratio t = none) := by
  constructor
  · rintro ⟨h1, h2, h3⟩
    have hok : ratioMatchOK N D = true := by
      simp [ratioMatchOK, h1, h2, h3]
    refine ⟨?_, rfl⟩
    rcases hform with h | h | h | h <;> subst h <;>
      simp [extract_reverse_split_ratio, tryPattern, hok]
  · intro hbad
    have hok : ratioMatchOK N D = false := by
      rcases hbad with h | h
      · have hnd : ¬ N < D := not_lt.mpr h
        simp [ratioMatchOK, hnd]
      · simp [ratioMatchOK, h]
    rcases hform with h | h | h | h <;> subst h <;>
      simp [extract_reverse_split_ratio, tryPattern, hok]

/-- Witness for C6: the colon-form text "1:20" extracts (1, 20) with the
log of 20/1 rounded to 4 decimals. -/
theorem c6_witness :
    extract_reverse_split_ratio ⟨none, none, some (1, 20), none⟩ = some (1, 20) ∧
    stored_log_ratio 1 20 = round4 (Real.log (((20 : Int) : ℝ) / ((1 : Int) : ℝ))) :=
  (c6_ratio_extraction 1 20 ⟨none, none, some (1, 20), none⟩
    (Or.inr (Or.inr (Or.inl rfl)))).1 ⟨by decide, by decide, by decide⟩

/-- Claim C8: for an event that exists but has no filings the selector
returns a no-announcement decision — no error entry, a null announcement
date, and empty tier listings — while a lookup of an id with no event
returns the explicit error result instead of raising. -/
theorem c8_zero_filings_vs_missing_event (db : DB) (id : Nat) :
    (∀ ev, findEvent db id = some ev → filingsFor db id = [] →
        (find_earliest_announcement db id).errOf = none ∧
        (find_earliest_announcement db id).annOf = none ∧
        (find_earliest_announcement db id).tiersOf = ([], [], [], [])) ∧
    (findEvent db id = none →
        find_earliest_announcement db id = SelResult.err (SelErr.notFound id)) := by
  constructor
  · intro ev hev hfil
    simp [find_earliest_announcement, hev, hfil, SelResult.errOf, SelResult.annOf,
      SelResult.tiersOf]
  · intro hev
    simp [find_earliest_announcement, hev]

/-- An event with no filings at all. -/
def c8Event : EventRec := ⟨"ZZZ", none, none⟩

def c8DB : DB := ⟨[(1, c8Event)], []⟩

/-- Witness for C8: event 1 exists with zero filings (null announcement,
no error, empty tiers); event 2 does not exist (explicit error). -/
theorem c8_witness :
    ((find_earliest_announcement c8DB 1).errOf = none ∧
     (find_earliest_announcement c8DB 1).annOf = none ∧
     (find_earliest_announcement c8DB 1).tiersOf = ([], [], [], [])) ∧
    find_earliest_announcement c8DB 2 = SelResult.err (SelErr.notFound 2) :=
  ⟨(c8_zero_filings_vs_missing_event c8DB 1).1 c8Event rfl rfl,
   (c8_zero_filings_vs_missing_event c8DB 2).2 rfl⟩
